import Mathlib

/-!
Verification of the wumpus-archiver ingestion subsystem.

Shallow embedding of the code under `src/wumpus_archiver/`:
* `models/attachment.py`, `models/channel.py` — entity records,
* `storage/repositories.py` — upsert-style repository operations,
* `bot/scraper.py` — the incremental per-channel scrape loop,
* `utils/downloader.py` — the asset download engine,
* `api/scrape_manager.py` — the single-flight background job manager,
* `api/transfer_manager.py` — the cross-store transfer engine.

Tables are modelled as lists of records, timestamps as abstract `Nat` ticks,
the remote HTTP side as an oracle function, and the SHA-256 digest as an
uninterpreted function parameter.
-/

namespace WumpusArchiver

/-! ## Data model (models/attachment.py) -/

/-- Attachment record (models/attachment.py).  The archival fields default the
way a freshly inserted row does: `local_path` NULL, `download_status`
"pending", `content_hash` NULL. -/
structure Attachment where
  id : Nat
  message_id : Nat
  filename : String
  content_type : Option String := none
  size : Nat := 0
  url : String := ""
  proxy_url : Option String := none
  width : Option Nat := none
  height : Option Nat := none
  local_path : Option String := none
  download_status : String := "pending"
  content_hash : Option String := none
deriving DecidableEq, Repr

/-! ## Attachment repository (storage/repositories.py, AttachmentRepository) -/

namespace AttachmentRepository

/-- `AttachmentRepository.upsert` (repositories.py lines 192-206): select the
row with the same id; if it exists, overwrite its `local_path`,
`download_status` and `content_hash` with the incoming record's values;
otherwise insert the incoming record. -/
def upsert (table : List Attachment) (attachment : Attachment) : List Attachment :=
  if table.any (fun a => a.id == attachment.id) then
    table.map (fun existing =>
      if existing.id == attachment.id then
        { existing with
          local_path := attachment.local_path
          download_status := attachment.download_status
          content_hash := attachment.content_hash }
      else existing)
  else
    table ++ [attachment]

end AttachmentRepository

/-- Look up an attachment row by primary key. -/
def lookupAttachment (table : List Attachment) (id : Nat) : Option Attachment :=
  table.find? (fun a => a.id == id)

/-! ## Discord-side attachment descriptor and `_save_attachment` (bot/scraper.py) -/

/-- The fields of a `discord.Attachment` that `_save_attachment` reads. -/
structure DiscordAttachment where
  id : Nat
  filename : String
  content_type : Option String := none
  size : Nat := 0
  url : String := ""
  proxy_url : Option String := none
  width : Option Nat := none
  height : Option Nat := none
deriving DecidableEq, Repr

/-- `ArchiverBot._save_attachment` (scraper.py lines 624-646): build a fresh
`Attachment` row with `download_status="pending"` (and therefore NULL
`local_path` / `content_hash`, never set on this code path) and upsert it. -/
def saveAttachment (table : List Attachment) (attachment : DiscordAttachment)
    (message_id : Nat) : List Attachment :=
  AttachmentRepository.upsert table
    { id := attachment.id
      message_id := message_id
      filename := attachment.filename
      content_type := attachment.content_type
      size := attachment.size
      url := attachment.url
      proxy_url := attachment.proxy_url
      width := attachment.width
      height := attachment.height
      download_status := "pending" }

/-! ## Download engine (utils/downloader.py) -/

/-- `IMAGE_CONTENT_TYPES` (downloader.py lines 23-29). -/
def IMAGE_CONTENT_TYPES : List String :=
  ["image/png", "image/jpeg", "image/gif", "image/webp", "image/avif"]

/-- `IMAGE_EXTENSIONS` (downloader.py line 31). -/
def IMAGE_EXTENSIONS : List String :=
  [".png", ".jpg", ".jpeg", ".gif", ".webp", ".avif", ".bmp", ".tiff"]

/-- `_image_filter` (downloader.py lines 34-39): content_type IN the image
content types (NULL compares false), OR the filename case-insensitively ends
with one of the image extensions (`ilike "%ext"`). -/
def imageFilter (a : Attachment) : Bool :=
  (match a.content_type with
   | some ct => IMAGE_CONTENT_TYPES.contains ct
   | none => false)
  || IMAGE_EXTENSIONS.any (fun ext => (a.filename.toLower).endsWith ext)

/-- Row predicate of both the per-channel COUNT query and the batch SELECT
query in `_download_channel_images` (downloader.py lines 228-269): the
attachment's message belongs to the channel, and `_image_filter` holds.
`messages` is the message table projected to (id, channel_id) pairs. -/
def channelAttachmentQueryPred (messages : List (Nat × Nat)) (channel_id : Nat)
    (a : Attachment) : Bool :=
  messages.any (fun m => m.1 == a.message_id && m.2 == channel_id) && imageFilter a

/-- Index of the last '.' in a character list, if any. -/
def lastDotIndex (cs : List Char) : Option Nat :=
  (List.range cs.length).foldl
    (fun acc i => if cs.getD i ' ' == '.' then some i else acc) none

/-- `pathlib.PurePath.suffix` on a bare file name: the part from the final
dot, when that dot is neither the first nor the last character. -/
def pathSuffix (name : String) : String :=
  let cs := name.toList
  match lastDotIndex cs with
  | some i => if 0 < i && i + 1 < cs.length then String.mk (cs.drop i) else ""
  | none => ""

/-- `pathlib.PurePath.stem` on a bare file name. -/
def pathStem (name : String) : String :=
  let cs := name.toList
  match lastDotIndex cs with
  | some i => if 0 < i && i + 1 < cs.length then String.mk (cs.take i) else name
  | none => name

/-- `_sanitize_filename` (downloader.py lines 48-65): replace the reserved
characters with '_', then cap the length at 200 by truncating the stem to 180
characters while preserving the extension. -/
def sanitizeFilename (filename : String) : String :=
  let replaced := String.mk (filename.toList.map (fun c =>
    if ['<', '>', ':', '"', '/', '\\', '|', '?', '*'].contains c then '_' else c))
  if replaced.length > 200 then
    (pathStem replaced).take 180 ++ pathSuffix replaced
  else replaced

/-- Result of one HTTP GET, as seen by `_download_attachment`:
a 200 with a byte payload, a non-200 status code, or a transport error
(`aiohttp.ClientError` / `asyncio.TimeoutError`). -/
inductive HttpResponse where
  | ok (body : List Nat)
  | status (code : Nat)
  | transportError
deriving DecidableEq, Repr

/-- What one pass over the url list decides. -/
inductive FetchResult where
  | fetched (data : List Nat)
  | missing
  | failedAll
deriving DecidableEq, Repr

/-- Inner url loop of `_download_attachment` (lines 351-388) for one attempt:
a 200 returns the body, a 404 returns immediately (without trying the
remaining urls), any other status or a transport error falls through to the
next url.  Also counts the HTTP requests made. -/
def attemptFetch (http : Nat → String → HttpResponse) (attempt : Nat) :
    List String → Option FetchResult × Nat
  | [] => (none, 0)
  | url :: rest =>
    match http attempt url with
    | HttpResponse.ok data => (some (FetchResult.fetched data), 1)
    | HttpResponse.status code =>
      if code == 404 then (some FetchResult.missing, 1)
      else
        let (r, n) := attemptFetch http attempt rest
        (r, n + 1)
    | HttpResponse.transportError =>
      let (r, n) := attemptFetch http attempt rest
      (r, n + 1)

/-- Outer retry loop of `_download_attachment` (`for attempt in
range(self.max_retries)`, lines 350-393): run attempts `attempt`,
`attempt+1`, ... while `remaining` attempts are left; between unresolved
attempts the code only sleeps (exponential backoff).  Returns the result and
the total number of HTTP requests. -/
def fetchWithRetries (http : Nat → String → HttpResponse) (urls : List String) :
    Nat → Nat → FetchResult × Nat
  | 0, _ => (FetchResult.failedAll, 0)
  | remaining + 1, attempt =>
    match attemptFetch http attempt urls with
    | (some r, n) => (r, n)
    | (none, n) =>
      let (r, m) := fetchWithRetries http urls remaining (attempt + 1)
      (r, n + m)

/-- `urls_to_try` (lines 346-348): the primary url, then the proxy url if set. -/
def urlsToTry (a : Attachment) : List String :=
  [a.url] ++ (match a.proxy_url with | some p => [p] | none => [])

/-- The four ways `_download_attachment` returns. -/
inductive DownloadOutcome where
  | success (relative_path : String) (content_hash : String) (size : Nat)
  | alreadyExists
  | notFound
  | exhausted (error_msg : String)
deriving DecidableEq, Repr

/-- `_download_attachment` (downloader.py lines 314-400).  `fs` is the set of
existing files (paths relative to `output_dir`), `hashFn` stands for
`hashlib.sha256(...).hexdigest()`, and `http` is the remote oracle.  Returns
the outcome together with the number of HTTP requests performed. -/
def downloadAttachment (max_retries : Nat) (hashFn : List Nat → String)
    (fs : List String) (http : Nat → String → HttpResponse)
    (attachment : Attachment) (channel_id : Nat) : DownloadOutcome × Nat :=
  if attachment.download_status == "downloaded"
      && (match attachment.local_path with
          | some p => fs.contains p
          | none => false) then
    (DownloadOutcome.alreadyExists, 0)
  else
    let safe_name := sanitizeFilename attachment.filename
    let relative_path := toString channel_id ++ "/" ++ toString attachment.id ++ "_" ++ safe_name
    match fetchWithRetries http (urlsToTry attachment) max_retries 0 with
    | (FetchResult.fetched data, n) =>
      (DownloadOutcome.success relative_path (hashFn data) data.length, n)
    | (FetchResult.missing, n) => (DownloadOutcome.notFound, n)
    | (FetchResult.failedAll, n) =>
      (DownloadOutcome.exhausted
        ("Failed after " ++ toString max_retries ++ " retries: " ++ attachment.filename), n)

/-- In-memory counters of `DownloadStats` that `_download_attachment` itself
mutates (lines 335, 372, 398-399): `already_exists`, `skipped`, `failed` and
the error list.  (`downloaded`/`total_bytes` are updated by the caller.) -/
structure DlStats where
  downloaded : Nat := 0
  skipped : Nat := 0
  failed : Nat := 0
  already_exists : Nat := 0
  total_bytes : Nat := 0
  errors : List String := []
deriving DecidableEq, Repr

/-- Stats mutations performed inside `_download_attachment` for each outcome. -/
def statsAfterOutcome (s : DlStats) : DownloadOutcome → DlStats
  | DownloadOutcome.success _ _ _ => s
  | DownloadOutcome.alreadyExists => { s with already_exists := s.already_exists + 1 }
  | DownloadOutcome.notFound => { s with skipped := s.skipped + 1 }
  | DownloadOutcome.exhausted msg =>
    { s with failed := s.failed + 1, errors := s.errors ++ [msg] }

/-- A value of `asyncio.gather(..., return_exceptions=True)` per attachment:
an escaped exception, the success tuple, or `None`. -/
inductive GatherResult where
  | exception (msg : String)
  | payload (relative_path : String) (content_hash : String) (size : Nat)
  | nothing
deriving DecidableEq, Repr

/-- How `_download_attachment`'s return value appears to the caller: the
success tuple, or `None` for every other outcome (already-exists, 404, and
retry exhaustion are indistinguishable to the caller). -/
def outcomeToGather : DownloadOutcome → GatherResult
  | DownloadOutcome.success p h n => GatherResult.payload p h n
  | DownloadOutcome.alreadyExists => GatherResult.nothing
  | DownloadOutcome.notFound => GatherResult.nothing
  | DownloadOutcome.exhausted _ => GatherResult.nothing

/-- `_update_attachment_status` (downloader.py lines 402-430): UPDATE the row
with the given id, setting `download_status`, `local_path`, `content_hash`. -/
def updateAttachmentStatus (table : List Attachment) (attachment_id : Nat)
    (status : String) (local_path content_hash : Option String) : List Attachment :=
  table.map (fun a =>
    if a.id == attachment_id then
      { a with download_status := status, local_path := local_path,
               content_hash := content_hash }
    else a)

/-- Result-application step of `_download_channel_images` (lines 282-306):
an exception marks the row failed, a payload marks it downloaded with path
and hash, and `None` performs no database write at all. -/
def applyDownloadResult (table : List Attachment) (a : Attachment) :
    GatherResult → List Attachment
  | GatherResult.exception _ => updateAttachmentStatus table a.id "failed" none none
  | GatherResult.payload p h _ => updateAttachmentStatus table a.id "downloaded" (some p) (some h)
  | GatherResult.nothing => table

/-! ## Channel model (models/channel.py) and repository (storage/repositories.py) -/

/-- Channel record (models/channel.py).  Archival metadata defaults as a
freshly inserted row: no cursor, zero messages, never scraped. -/
structure ChannelRow where
  id : Nat
  guild_id : Nat
  name : String
  type : Nat
  topic : Option String := none
  position : Nat := 0
  parent_id : Option Nat := none
  first_message_id : Option Nat := none
  last_message_id : Option Nat := none
  last_scraped_at : Option Nat := none
  message_count : Nat := 0
deriving DecidableEq, Repr

/-- Look up a channel row by primary key (`ChannelRepository.get_by_id`). -/
def lookupChannel (table : List ChannelRow) (id : Nat) : Option ChannelRow :=
  table.find? (fun c => c.id == id)

namespace ChannelRepository

/-- `ChannelRepository.upsert` (repositories.py lines 77-88): if a row with
the id exists, overwrite its `name`, `topic`, `position`, `parent_id`;
otherwise insert the incoming record.  The archival metadata fields are left
untouched on update. -/
def upsert (table : List ChannelRow) (channel : ChannelRow) : List ChannelRow :=
  if table.any (fun c => c.id == channel.id) then
    table.map (fun existing =>
      if existing.id == channel.id then
        { existing with
          name := channel.name
          topic := channel.topic
          position := channel.position
          parent_id := channel.parent_id }
      else existing)
  else
    table ++ [channel]

/-- `ChannelRepository.update_message_metadata` (repositories.py lines
90-98): set `last_message_id`, add `increment` to `message_count`, stamp
`last_scraped_at`. -/
def update_message_metadata (table : List ChannelRow) (channel_id : Nat)
    (last_message_id : Nat) (increment : Nat) (now : Nat) : List ChannelRow :=
  table.map (fun c =>
    if c.id == channel_id then
      { c with
        last_message_id := some last_message_id
        message_count := c.message_count + increment
        last_scraped_at := some now }
    else c)

/-- The methods the class `ChannelRepository` defines (repositories.py lines
61-98), for modelling Python attribute lookup on a repository instance. -/
def methodNames : List String :=
  ["get_by_id", "get_by_guild", "upsert", "update_message_metadata"]

end ChannelRepository

/-- Python errors the embedded scraper can raise. -/
inductive PyError where
  | attributeError (name : String)
deriving DecidableEq, Repr

/-- The call `channel_repo.mark_scraped(channel.id)` at scraper.py line 544:
Python attribute lookup on the `ChannelRepository` instance, which raises
`AttributeError` because the class does not define `mark_scraped`. -/
def channelRepoMarkScraped : Except PyError Unit :=
  if ChannelRepository.methodNames.contains "mark_scraped" then Except.ok ()
  else Except.error (PyError.attributeError "mark_scraped")

/-! ## The per-channel scrape loop (bot/scraper.py, `_scrape_channel`) -/

/-- A message yielded by `channel.history(...)`, reduced to what the loop
reads, plus `saveOk`: whether `_save_message` succeeds for it (a per-message
store failure is an exception raised by the save). -/
structure FetchedMessage where
  id : Nat
  attachmentCount : Nat := 0
  saveOk : Bool := true
deriving DecidableEq, Repr

/-- State threaded through the message loop of `_scrape_channel` (lines
469-530): the session's committed and still-uncommitted message ids, the
`stats` counters, and the tracked oldest/newest ids. -/
structure ScrapeState where
  committed : List Nat := []
  pending : List Nat := []
  messages : Nat := 0
  attachments : Nat := 0
  first_id : Option Nat := none
  last_id : Option Nat := none
deriving DecidableEq, Repr

/-- One iteration of `async for message in channel.history(...)` (lines
496-527).  On a successful save the message id joins the uncommitted set,
`stats["messages"]` increments, the oldest/newest trackers update by
comparison, and every `batch_size`-th counted message commits the session.
On a save failure the session is rolled back — the uncommitted ids are
discarded — and the loop continues. -/
def scrapeStep (batch_size : Nat) (s : ScrapeState) (m : FetchedMessage) : ScrapeState :=
  if m.saveOk then
    let messages := s.messages + 1
    -- lines 501-509: `if first_message_id is None` sets both trackers to the
    -- message id, else each tracker updates by comparison (first_id = none
    -- exactly when last_id = none, as they are only ever set together)
    let first_id :=
      match s.first_id with
      | none => some m.id
      | some f => some (if m.id < f then m.id else f)
    let last_id :=
      match s.first_id, s.last_id with
      | none, _ => some m.id
      | some _, some l => some (if m.id > l then m.id else l)
      | some _, none => some m.id  -- unreachable
    let attachments := s.attachments + m.attachmentCount
    let pending := s.pending ++ [m.id]
    if messages % batch_size == 0 then
      { committed := s.committed ++ pending, pending := [],
        messages := messages, attachments := attachments,
        first_id := first_id, last_id := last_id }
    else
      { s with pending := pending, messages := messages, attachments := attachments,
               first_id := first_id, last_id := last_id }
  else
    { s with pending := [] }

/-- The whole message loop, before the final commit. -/
def scrapeLoopRaw (batch_size : Nat) (fetched : List FetchedMessage) : ScrapeState :=
  fetched.foldl (scrapeStep batch_size) {}

/-- The message loop followed by the final `session.commit()` (line 530). -/
def scrapeLoop (batch_size : Nat) (fetched : List FetchedMessage) : ScrapeState :=
  let s := scrapeLoopRaw batch_size fetched
  { s with committed := s.committed ++ s.pending, pending := [] }

/-- The channel/thread descriptor fields `_scrape_channel` reads. -/
structure ChannelDescriptor where
  id : Nat
  guild_id : Nat
  name : String
  type : Nat
  topic : Option String := none
  position : Nat := 0
  parent_id : Option Nat := none
deriving DecidableEq, Repr

/-- Python truthiness of `existing_last_id` (line 483's `if existing_last_id:`):
`None` and `0` are falsy. -/
def pyTruthy : Option Nat → Bool
  | none => false
  | some n => n != 0

/-- The `Channel` record `_scrape_channel` builds from the descriptor (lines
457-465): archival metadata at its defaults. -/
def descRow (desc : ChannelDescriptor) : ChannelRow :=
  { id := desc.id
    guild_id := desc.guild_id
    name := desc.name
    type := desc.type
    topic := desc.topic
    position := desc.position
    parent_id := desc.parent_id }

/-- The channel table after the metadata upsert and commit (lines 457-467). -/
def postMetadataChannels (channels : List ChannelRow) (desc : ChannelDescriptor) :
    List ChannelRow :=
  ChannelRepository.upsert channels (descRow desc)

/-- The cursor decision (lines 478-494): re-read the channel, and fetch after
its stored `last_message_id` when that is truthy, else fetch the full
history (`none` cursor). -/
def scrapeCursor (channels : List ChannelRow) (desc : ChannelDescriptor) : Option Nat :=
  let existing := lookupChannel (postMetadataChannels channels desc) desc.id
  let existing_last_id := match existing with
    | some c => c.last_message_id
    | none => none
  if pyTruthy existing_last_id then existing_last_id else none

/-- What one `_scrape_channel` call leaves behind. -/
structure ScrapeChannelOutcome where
  channels : List ChannelRow
  committedMessages : List Nat
  statsMessages : Nat
  statsAttachments : Nat
  error : Option PyError
deriving Repr

/-- Lines 532-546 of `_scrape_channel`: after the loop and final commit, a
positive message count sets `first_message_id` on the ORM row and calls
`update_message_metadata` (which stamps the cursor, adds the count and the
`last_scraped_at` tick); a zero count calls the nonexistent `mark_scraped`,
raising `AttributeError` (the effects committed before the raise persist). -/
def scrapeChannelFinish (channels : List ChannelRow) (desc : ChannelDescriptor)
    (s : ScrapeState) (now : Nat) : ScrapeChannelOutcome :=
  if s.messages > 0 then
    match s.first_id, s.last_id with
    | some first, some last =>
      { channels :=
          ChannelRepository.update_message_metadata
            (channels.map (fun c =>
              if c.id == desc.id then { c with first_message_id := some first } else c))
            desc.id last s.messages now
        committedMessages := s.committed
        statsMessages := s.messages
        statsAttachments := s.attachments
        error := none }
    | _, _ =>  -- unreachable: a positive count implies both trackers are set
      { channels := channels, committedMessages := s.committed,
        statsMessages := s.messages, statsAttachments := s.attachments, error := none }
  else
    match channelRepoMarkScraped with
    | Except.ok _ =>
      { channels := channels, committedMessages := s.committed,
        statsMessages := s.messages, statsAttachments := s.attachments, error := none }
    | Except.error e =>
      { channels := channels, committedMessages := s.committed,
        statsMessages := s.messages, statsAttachments := s.attachments, error := some e }

/-- `_scrape_channel` (scraper.py lines 432-546).  `history` is the remote
capability: it maps the chosen cursor (`some last_id` for an incremental
fetch, `none` for a full fetch) to the message sequence.  Metadata upsert and
commit, cursor decision, message loop with batch commits, final commit, then
the metadata update. -/
def scrapeChannel (channels : List ChannelRow) (desc : ChannelDescriptor)
    (history : Option Nat → List FetchedMessage) (now : Nat) : ScrapeChannelOutcome :=
  scrapeChannelFinish (postMetadataChannels channels desc) desc
    (scrapeLoop 100 (history (scrapeCursor channels desc))) now

/-- A sequence of consecutive scrape invocations over the same channel, each
with its own remote history and clock tick. -/
def scrapeChannelIter (desc : ChannelDescriptor) :
    List ChannelRow → List ((Option Nat → List FetchedMessage) × Nat) → List ChannelRow
  | channels, [] => channels
  | channels, (h, now) :: rest =>
    scrapeChannelIter desc (scrapeChannel channels desc h now).channels rest

/-! ## Single-flight job manager (api/scrape_manager.py) -/

/-- `JobStatus` (scrape_manager.py lines 18-26). -/
inductive JobStatus where
  | pending
  | connecting
  | scraping
  | completed
  | failed
  | cancelled
deriving DecidableEq, Repr

/-- `ScrapeJob` (scrape_manager.py lines 40-51), progress fields omitted. -/
structure ScrapeJob where
  id : String
  guild_id : Nat
  channel_ids : Option (List Nat) := none
  status : JobStatus := JobStatus.pending
  started_at : Option Nat := none
  completed_at : Option Nat := none
  error_message : Option String := none
deriving DecidableEq, Repr

/-- The manager state `start_scrape`/`cancel` read and write. -/
structure ScrapeJobManager where
  current_job : Option ScrapeJob := none
  cancel_requested : Bool := false
deriving DecidableEq, Repr

/-- `ScrapeJobManager.is_busy` (lines 110-116): a current job exists and its
status is PENDING, CONNECTING or SCRAPING. -/
def ScrapeJobManager.is_busy (m : ScrapeJobManager) : Bool :=
  match m.current_job with
  | some j =>
    j.status == JobStatus.pending || j.status == JobStatus.connecting
      || j.status == JobStatus.scraping
  | none => false

/-- The error `start_scrape` raises (`RuntimeError("A scrape job is already
running")`). -/
inductive StartError where
  | alreadyRunning
deriving DecidableEq, Repr

/-- `ScrapeJobManager.start_scrape` (lines 118-153): raise if busy — before
any mutation, so the manager is returned unchanged — else allocate a job
with a fresh id, status PENDING and `started_at = now`, install it, clear the
cancel flag, spawn the engine task, and return at once (the engine has not
run yet, so the returned job still has status PENDING). -/
def ScrapeJobManager.start_scrape (m : ScrapeJobManager) (guild_id : Nat)
    (channel_ids : Option (List Nat)) (new_id : String) (now : Nat) :
    Except StartError ScrapeJob × ScrapeJobManager :=
  if m.is_busy then
    (Except.error StartError.alreadyRunning, m)
  else
    let job : ScrapeJob :=
      { id := new_id, guild_id := guild_id, channel_ids := channel_ids,
        status := JobStatus.pending, started_at := some now }
    (Except.ok job, { current_job := some job, cancel_requested := false })

/-- State shared between one engine task and `cancel()` calls: the job being
run, the cancel flag, and the value the cancel call returned (if one was
made). -/
structure EngineRun where
  job : ScrapeJob
  cancel_requested : Bool := false
  cancel_result : Option Bool := none
deriving DecidableEq, Repr

/-- `ScrapeJobManager.cancel` (lines 155-172) applied to the running job:
return False if the job is not in a non-terminal status; otherwise set the
cancel flag, mark the job CANCELLED, stamp `completed_at`, and return True
(the bot is also force-closed, which may make the in-flight scrape raise). -/
def cancelCall (s : EngineRun) (now : Nat) : EngineRun :=
  if s.job.status == JobStatus.pending || s.job.status == JobStatus.connecting
      || s.job.status == JobStatus.scraping then
    { job := { s.job with status := JobStatus.cancelled, completed_at := some now },
      cancel_requested := true, cancel_result := some true }
  else
    { s with cancel_result := some false }

/-- The cooperative-suspension point at which a single `cancel()` call is
interleaved with the engine task `_run_scrape` (awaits are the only points
where another coroutine can run). -/
inductive CancelPoint where
  | beforeEngineRuns
  | afterConnect
  | duringScrape
  | afterFinish
  | never
deriving DecidableEq, Repr

/-- `_run_scrape` (scrape_manager.py lines 183-296) with one `cancel()` call
interleaved at `p`, assuming the Discord connection succeeds: set status
CONNECTING, await the bot; at the single cooperative checkpoint (line 200)
return early if cancellation was requested (without writing a status); else
set status SCRAPING, await the scrape, and record the terminal result —
COMPLETED on success, FAILED with the error message if the scrape raised
(`scrape_raises`, e.g. because `cancel` force-closed the bot). -/
def runEngine (p : CancelPoint) (scrape_raises : Bool) (err : String)
    (job0 : ScrapeJob) (t_cancel t_end : Nat) : EngineRun :=
  let s0 : EngineRun := { job := job0 }
  let s0 := if p == CancelPoint.beforeEngineRuns then cancelCall s0 t_cancel else s0
  let s1 := { s0 with job := { s0.job with status := JobStatus.connecting } }
  let s1 := if p == CancelPoint.afterConnect then cancelCall s1 t_cancel else s1
  if s1.cancel_requested then
    s1
  else
    let s2 := { s1 with job := { s1.job with status := JobStatus.scraping } }
    let s2 := if p == CancelPoint.duringScrape then cancelCall s2 t_cancel else s2
    let s3 :=
      if scrape_raises then
        { s2 with job :=
          { s2.job with
            status := JobStatus.failed
            completed_at := some t_end
            error_message := some err } }
      else
        { s2 with job :=
          { s2.job with
            status := JobStatus.completed
            completed_at := some t_end } }
    if p == CancelPoint.afterFinish then cancelCall s3 t_cancel else s3

/-! ## Cross-store transfer engine (api/transfer_manager.py) -/

/-- The six ORM models. -/
inductive TableModel where
  | guild
  | user
  | channel
  | message
  | attachment
  | reaction
deriving DecidableEq, Repr

/-- `TABLES` (transfer_manager.py lines 22-30): the fixed transfer order. -/
def TABLES : List (String × TableModel) :=
  [("guilds", TableModel.guild), ("users", TableModel.user),
   ("channels", TableModel.channel), ("messages", TableModel.message),
   ("attachments", TableModel.attachment), ("reactions", TableModel.reaction)]

/-- `auto_increment_tables` (transfer_manager.py line 210): the tables with a
surrogate auto-increment primary key. -/
def auto_increment_tables : List String := ["reactions"]

/-- Python's `"sub" in s` on strings (computed over the character lists). -/
def pySubstring (sub s : String) : Bool :=
  (List.range (s.toList.length + 1)).any
    (fun i => sub.toList.isPrefixOf (s.toList.drop i))

/-- `COALESCE((SELECT MAX(id) FROM t), 1)`: the maximum id, or 1 for an empty
table (SQL MAX over no rows is NULL). -/
def setvalValue (ids : List Nat) : Nat :=
  match ids with
  | [] => 1
  | _ => ids.foldl Nat.max 0

/-- Observable steps of `_run_transfer`. -/
inductive TransferEvent where
  | countRows (total : Nat)
  | transferTable (name : String)
  | resetSequence (table : String) (value : Nat)
deriving DecidableEq, Repr

/-- `_reset_sequences` (transfer_manager.py lines 198-221): nothing unless the
target url is a PostgreSQL one; otherwise `setval` each auto-increment
table's sequence to `COALESCE(MAX(id), 1)` (only `reactions`, whose ids are
`reaction_ids` in the target after the copy). -/
def resetSequences (target_url : String) (reaction_ids : List Nat) : List TransferEvent :=
  if pySubstring "postgresql" target_url then
    auto_increment_tables.map (fun t => TransferEvent.resetSequence t (setvalValue reaction_ids))
  else []

/-- The event trace of `_run_transfer` (transfer_manager.py lines 100-150)
for a run with no cancellation request and no error: phase 1 counts the rows
of every table in `TABLES`, phase 2 transfers each table in `TABLES` order,
phase 3 resets the sequences. -/
def runTransferEvents (row_counts : TableModel → Nat) (target_url : String)
    (reaction_ids : List Nat) : List TransferEvent :=
  TransferEvent.countRows (TABLES.foldl (fun acc t => acc + row_counts t.2) 0)
    :: (TABLES.map (fun t => TransferEvent.transferTable t.1)
        ++ resetSequences target_url reaction_ids)

/-! ## Concrete fixtures used by the claim theorems -/

/-- A pending image attachment whose remote file has been deleted (404). -/
def att404 : Attachment :=
  { id := 21
    message_id := 7
    filename := "gone.png"
    content_type := some "image/png"
    size := 10
    url := "https://cdn.example/gone.png"
    proxy_url := some "https://proxy.example/gone.png" }

/-- A pending image attachment whose server keeps failing. -/
def att500 : Attachment :=
  { id := 11
    message_id := 8
    filename := "dog.png"
    content_type := some "image/png"
    size := 2
    url := "https://cdn.example/dog.png" }

/-- An image attachment already downloaded, with its file on disk. -/
def attDone : Attachment :=
  { id := 20
    message_id := 7
    filename := "x.png"
    content_type := some "image/png"
    size := 1
    url := "https://cdn.example/x.png"
    local_path := some "5/20_x.png"
    download_status := "downloaded"
    content_hash := some "h" }

/-- Remote oracle: every GET returns HTTP 404. -/
def http404 : Nat → String → HttpResponse := fun _ _ => HttpResponse.status 404

/-- Remote oracle: every GET returns HTTP 500. -/
def http500 : Nat → String → HttpResponse := fun _ _ => HttpResponse.status 500

/-- Remote oracle: HTTP 500 on attempts 0-2, HTTP 200 on the fourth attempt. -/
def http500then200 : Nat → String → HttpResponse := fun attempt _ =>
  if attempt == 3 then HttpResponse.ok [1, 2] else HttpResponse.status 500

/-- A concrete stand-in for the SHA-256 hex digest. -/
def hash0 : List Nat → String := fun _ => "h"

/-- A remote history capability honouring the after-cursor contract: a full
fetch yields three messages (out of id order), an incremental fetch yields
nothing. -/
def historyW : Option Nat → List FetchedMessage := fun cursor =>
  match cursor with
  | none => [{ id := 5 }, { id := 9 }, { id := 3 }]
  | some _ => []

/-! ## Observables used to state the cursor claims -/

/-- The tracker update `first_message_id := min(first_message_id, id)` as an
`Option` fold. -/
def optMin (o : Option Nat) (x : Nat) : Option Nat :=
  some (match o with | none => x | some a => min a x)

/-- The tracker update `last_message_id := max(last_message_id, id)` as an
`Option` fold. -/
def optMax (o : Option Nat) (x : Nat) : Option Nat :=
  some (match o with | none => x | some a => max a x)

/-- The ids of the fetched messages whose save succeeded — exactly the
messages the loop counts and tracks. -/
def savedIds (fetched : List FetchedMessage) : List Nat :=
  (fetched.filter (fun m => m.saveOk)).map (fun m => m.id)

/-- The stored cursor of a channel lookup, read as a number (no channel or no
cursor count as 0, the smallest possible value). -/
def cursorNat : Option ChannelRow → Nat
  | none => 0
  | some c => c.last_message_id.getD 0

/-- The stored message count of a channel lookup. -/
def countNat : Option ChannelRow → Nat
  | none => 0
  | some c => c.message_count

/-- What `ChannelRepository.upsert (descRow desc)` does to a row already in
the table: metadata fields refreshed when the id matches, untouched
otherwise (archival fields always preserved). -/
def channelMetaUpdated (desc : ChannelDescriptor) (c : ChannelRow) : ChannelRow :=
  if c.id == desc.id then
    { c with
      name := desc.name
      topic := desc.topic
      position := desc.position
      parent_id := desc.parent_id }
  else c

/-! ## Claims -/

/-- C1: the claim fails on the code.  `_save_attachment` always builds a
fresh record with `download_status="pending"` and NULL `local_path` /
`content_hash`, and `AttachmentRepository.upsert` overwrites exactly those
three fields of an existing row with the incoming values.  Re-upserting an
already-downloaded attachment therefore resets its status to pending and
clears its local path and content hash — downloaded is not terminal across
re-scrapes. -/
theorem c1_rescrape_clears_downloaded_attachment :
    lookupAttachment
      (saveAttachment
        [{ id := 10
           message_id := 7
           filename := "cat.png"
           content_type := some "image/png"
           size := 123
           url := "https://cdn.example/cat.png"
           local_path := some "5/10_cat.png"
           download_status := "downloaded"
           content_hash := some "abc123" }]
        { id := 10
          filename := "cat.png"
          content_type := some "image/png"
          size := 123
          url := "https://cdn.example/cat.png" }
        7)
      10
    = some
      { id := 10
        message_id := 7
        filename := "cat.png"
        content_type := some "image/png"
        size := 123
        url := "https://cdn.example/cat.png"
        local_path := none
        download_status := "pending"
        content_hash := none } := by
  rfl

/-- C2: the claim fails on the code.  On the zero-new-messages path
`_scrape_channel` calls `channel_repo.mark_scraped(channel.id)`, but the
class `ChannelRepository` defines no such method, so the call raises
`AttributeError`: the channel is left with its old `last_scraped_at` (here
tick 4, while the scrape runs at tick 9) and the per-channel processing ends
in an error instead of marking the channel freshly checked. -/
theorem c2_zero_new_messages_raises_attribute_error :
    (scrapeChannel
        [{ id := 3
           guild_id := 1
           name := "general"
           type := 0
           last_message_id := some 500
           last_scraped_at := some 4
           message_count := 7 }]
        { id := 3, guild_id := 1, name := "general", type := 0 }
        (fun _ => []) 9).error
      = some (PyError.attributeError "mark_scraped")
    ∧ lookupChannel
        (scrapeChannel
          [{ id := 3
             guild_id := 1
             name := "general"
             type := 0
             last_message_id := some 500
             last_scraped_at := some 4
             message_count := 7 }]
          { id := 3, guild_id := 1, name := "general", type := 0 }
          (fun _ => []) 9).channels 3
      = some
        { id := 3
          guild_id := 1
          name := "general"
          type := 0
          last_message_id := some 500
          last_scraped_at := some 4
          message_count := 7 } := by
  exact ⟨rfl, rfl⟩

/-- C3: the claim fails on the code.  A 404 makes `_download_attachment`
return `None` after a single request (no retry, in-memory `skipped` counter
incremented), but the caller performs no database write for a `None` result:
the stored `download_status` stays "pending" (never becomes "skipped"), the
selection queries — which do not filter on status — select the attachment
again on the next run, and the fetch is repeated. -/
theorem c3_404_not_persisted_and_refetched :
    downloadAttachment 3 hash0 [] http404 att404 5 = (DownloadOutcome.notFound, 1)
    ∧ statsAfterOutcome {} DownloadOutcome.notFound = { skipped := 1 }
    ∧ applyDownloadResult [att404] att404 (outcomeToGather DownloadOutcome.notFound)
        = [att404]
    ∧ att404.download_status = "pending"
    ∧ channelAttachmentQueryPred [(7, 5)] 5 att404 = true := by
  exact ⟨rfl, rfl, rfl, rfl, rfl⟩

/-- C4: the attempt-count boundary is exact, but the stored-status half of
the claim fails on the code.  With `max_retries = 3` and HTTP 500 on every
attempt the engine stops after exactly 3 requests and records the failure
only in the in-memory stats (counter and error list) — the `None` return
causes no database write, so the stored `download_status` stays "pending"
instead of becoming "failed".  With `max_retries = 4` and a 200 on the
fourth attempt the attachment is stored as downloaded with path and hash. -/
theorem c4_retry_ceiling_boundary :
    downloadAttachment 3 hash0 [] http500 att500 9
      = (DownloadOutcome.exhausted "Failed after 3 retries: dog.png", 3)
    ∧ statsAfterOutcome {} (DownloadOutcome.exhausted "Failed after 3 retries: dog.png")
        = { failed := 1, errors := ["Failed after 3 retries: dog.png"] }
    ∧ applyDownloadResult [att500] att500
        (outcomeToGather (DownloadOutcome.exhausted "Failed after 3 retries: dog.png"))
        = [att500]
    ∧ att500.download_status = "pending"
    ∧ downloadAttachment 4 hash0 [] http500then200 att500 9
        = (DownloadOutcome.success "9/11_dog.png" "h" 2, 4)
    ∧ applyDownloadResult [att500] att500
        (outcomeToGather (DownloadOutcome.success "9/11_dog.png" "h" 2))
        = [{ att500 with
             download_status := "downloaded"
             local_path := some "9/11_dog.png"
             content_hash := some "h" }] := by
  exact ⟨rfl, rfl, rfl, rfl, rfl, rfl⟩

/-- C5 counterexample: the per-channel count and batch queries filter only on
channel membership and `_image_filter`, not on `download_status`, so an
attachment whose status is "downloaded" satisfies the selection predicate,
refuting the claim that only pending attachments are selected. -/
theorem c5_counterexample_downloaded_is_selected :
    channelAttachmentQueryPred [(7, 5)] 5 attDone = true
    ∧ attDone.download_status = "downloaded" := by
  exact ⟨rfl, rfl⟩

/-- C5 (amended): the selection queries pick image-eligible attachments of
the channel regardless of `download_status` — the predicate is invariant
under changing the status — and an attachment already marked downloaded
whose local file exists is skipped inside the per-attachment fetch with zero
network requests. -/
theorem c5_selection_ignores_status :
    (∀ (messages : List (Nat × Nat)) (channel_id : Nat) (a : Attachment) (status : String),
       channelAttachmentQueryPred messages channel_id { a with download_status := status }
         = channelAttachmentQueryPred messages channel_id a)
    ∧ (∀ (http : Nat → String → HttpResponse) (max_retries : Nat),
       downloadAttachment max_retries hash0 ["5/20_x.png"] http attDone 5
         = (DownloadOutcome.alreadyExists, 0)) := by
  exact ⟨fun _ _ _ _ => rfl, fun _ _ => rfl⟩

/-- C7: `start_scrape` on a busy manager (current job pending, connecting or
scraping) returns the AlreadyRunning error before any mutation — the
existing job stays in place and no second job is created; on a free manager
it installs and returns a fresh job with status pending and `started_at`
stamped, without running the engine (the returned job is still pending). -/
theorem c7_start_single_flight (m : ScrapeJobManager) (guild_id : Nat)
    (channel_ids : Option (List Nat)) (new_id : String) (now : Nat) :
    (m.is_busy = true →
      m.start_scrape guild_id channel_ids new_id now
        = (Except.error StartError.alreadyRunning, m))
    ∧ (m.is_busy = false →
      m.start_scrape guild_id channel_ids new_id now
        = (Except.ok
            { id := new_id
              guild_id := guild_id
              channel_ids := channel_ids
              status := JobStatus.pending
              started_at := some now },
           { current_job := some
               { id := new_id
                 guild_id := guild_id
                 channel_ids := channel_ids
                 status := JobStatus.pending
                 started_at := some now }
             cancel_requested := false })) := by
  constructor <;> intro h <;> simp [ScrapeJobManager.start_scrape, h]

/-- C7 witness: the theorem applied to a busy manager (job scraping) and to
an idle manager. -/
theorem c7_start_single_flight_witness :
    ScrapeJobManager.start_scrape
        { current_job := some { id := "a", guild_id := 1, status := JobStatus.scraping }
          cancel_requested := false }
        2 none "b" 5
      = (Except.error StartError.alreadyRunning,
         { current_job := some { id := "a", guild_id := 1, status := JobStatus.scraping }
           cancel_requested := false })
    ∧ ScrapeJobManager.start_scrape { current_job := none, cancel_requested := false }
        2 none "b" 5
      = (Except.ok
          { id := "b", guild_id := 2, channel_ids := none
            status := JobStatus.pending, started_at := some 5 },
         { current_job := some
             { id := "b", guild_id := 2, channel_ids := none
               status := JobStatus.pending, started_at := some 5 }
           cancel_requested := false }) := by
  exact ⟨(c7_start_single_flight _ 2 none "b" 5).1 (by decide),
         (c7_start_single_flight _ 2 none "b" 5).2 (by decide)⟩

/-- C8 counterexample: a `cancel()` issued while the engine is in its
scraping phase returns true and sets the job to cancelled, but the engine
task — whose only cooperative cancellation checkpoint is right after
connecting — later overwrites the status with completed, refuting the claim
that a cancelled job is never subsequently recorded as completed or
failed. -/
theorem c8_counterexample_cancel_overwritten :
    (runEngine CancelPoint.duringScrape false ""
        { id := "j", guild_id := 1, status := JobStatus.pending, started_at := some 0 }
        1 2).cancel_result = some true
    ∧ (runEngine CancelPoint.duringScrape false ""
        { id := "j", guild_id := 1, status := JobStatus.pending, started_at := some 0 }
        1 2).job.status = JobStatus.completed := by
  exact ⟨rfl, rfl⟩

/-- C8 (amended): `cancel()` returns false when no non-terminal job exists
and true otherwise, immediately marking the job cancelled with
`completed_at` stamped; but the cancelled status persists only when the
engine observes the request at its single post-connect checkpoint.  A cancel
issued during the scrape phase is overwritten by the engine's terminal write
(completed, or failed if the scrape raised), and one issued before the
engine task first runs is overwritten by the connecting status write. -/
theorem c8_cancel_checkpoint_semantics (scrape_raises : Bool) (err new_id : String)
    (guild_id t0 t_cancel t_end : Nat) :
    (runEngine CancelPoint.never scrape_raises err
        { id := new_id, guild_id := guild_id, status := JobStatus.pending,
          started_at := some t0 } t_cancel t_end).cancel_result = none
    ∧ (runEngine CancelPoint.never scrape_raises err
        { id := new_id, guild_id := guild_id, status := JobStatus.pending,
          started_at := some t0 } t_cancel t_end).job.status
        = (if scrape_raises then JobStatus.failed else JobStatus.completed)
    ∧ (runEngine CancelPoint.afterConnect scrape_raises err
        { id := new_id, guild_id := guild_id, status := JobStatus.pending,
          started_at := some t0 } t_cancel t_end).cancel_result = some true
    ∧ (runEngine CancelPoint.afterConnect scrape_raises err
        { id := new_id, guild_id := guild_id, status := JobStatus.pending,
          started_at := some t0 } t_cancel t_end).job.status = JobStatus.cancelled
    ∧ (runEngine CancelPoint.afterConnect scrape_raises err
        { id := new_id, guild_id := guild_id, status := JobStatus.pending,
          started_at := some t0 } t_cancel t_end).job.completed_at = some t_cancel
    ∧ (runEngine CancelPoint.duringScrape scrape_raises err
        { id := new_id, guild_id := guild_id, status := JobStatus.pending,
          started_at := some t0 } t_cancel t_end).cancel_result = some true
    ∧ (runEngine CancelPoint.duringScrape scrape_raises err
        { id := new_id, guild_id := guild_id, status := JobStatus.pending,
          started_at := some t0 } t_cancel t_end).job.status
        = (if scrape_raises then JobStatus.failed else JobStatus.completed)
    ∧ (runEngine CancelPoint.beforeEngineRuns scrape_raises err
        { id := new_id, guild_id := guild_id, status := JobStatus.pending,
          started_at := some t0 } t_cancel t_end).cancel_result = some true
    ∧ (runEngine CancelPoint.beforeEngineRuns scrape_raises err
        { id := new_id, guild_id := guild_id, status := JobStatus.pending,
          started_at := some t0 } t_cancel t_end).job.status = JobStatus.connecting
    ∧ (runEngine CancelPoint.afterFinish scrape_raises err
        { id := new_id, guild_id := guild_id, status := JobStatus.pending,
          started_at := some t0 } t_cancel t_end).cancel_result = some false
    ∧ (runEngine CancelPoint.afterFinish scrape_raises err
        { id := new_id, guild_id := guild_id, status := JobStatus.pending,
          started_at := some t0 } t_cancel t_end).job.status
        = (if scrape_raises then JobStatus.failed else JobStatus.completed) := by
  cases scrape_raises <;>
    exact ⟨rfl, rfl, rfl, rfl, rfl, rfl, rfl, rfl, rfl, rfl, rfl⟩

/-- C9: the transfer engine's fixed table order is guilds, users, channels,
messages, attachments, reactions (six tables, FK-respecting), and for a
PostgreSQL target the run resets the auto-increment sequence of the
reactions table only — to `COALESCE(MAX(id), 1)` — after all six table
transfers complete. -/
theorem c9_transfer_order_and_sequence_reset :
    TABLES.map Prod.fst
      = ["guilds", "users", "channels", "messages", "attachments", "reactions"]
    ∧ auto_increment_tables = ["reactions"]
    ∧ ∀ (row_counts : TableModel → Nat) (reaction_ids : List Nat),
        runTransferEvents row_counts "postgresql+asyncpg://localhost:5432/archive"
            reaction_ids
          = [TransferEvent.countRows
               (0 + row_counts TableModel.guild + row_counts TableModel.user
                  + row_counts TableModel.channel + row_counts TableModel.message
                  + row_counts TableModel.attachment + row_counts TableModel.reaction),
             TransferEvent.transferTable "guilds",
             TransferEvent.transferTable "users",
             TransferEvent.transferTable "channels",
             TransferEvent.transferTable "messages",
             TransferEvent.transferTable "attachments",
             TransferEvent.transferTable "reactions",
             TransferEvent.resetSequence "reactions" (setvalValue reaction_ids)] := by
  refine ⟨rfl, rfl, fun row_counts reaction_ids => ?_⟩
  have h : pySubstring "postgresql" "postgresql+asyncpg://localhost:5432/archive" = true := by
    decide
  simp [runTransferEvents, resetSequences, h, TABLES, auto_increment_tables]

/-! ## Batch/rollback accounting of the scrape loop (claim C10) -/

/-- A failed save rolls the session back — the uncommitted ids are discarded —
while every other field of the loop state, in particular the `stats["messages"]`
counter, is untouched. -/
lemma scrapeStep_saveFail (bs : Nat) (s : ScrapeState) (m : FetchedMessage)
    (h : m.saveOk = false) : scrapeStep bs s m = { s with pending := [] } := by
  simp [scrapeStep, h]

/-- Loop invariant: the number of uncommitted messages never exceeds
`messages % batch_size`. -/
lemma scrapeStep_pending_invariant (bs : Nat) (s : ScrapeState) (m : FetchedMessage)
    (h : s.pending.length ≤ s.messages % bs) :
    (scrapeStep bs s m).pending.length ≤ (scrapeStep bs s m).messages % bs := by
  cases hm : m.saveOk with
  | false => simp [scrapeStep, hm]
  | true =>
    cases hc : ((s.messages + 1) % bs == 0) with
    | true => simp [scrapeStep, hm, hc]
    | false =>
      have hne : (s.messages + 1) % bs ≠ 0 := by simpa using hc
      rcases Nat.eq_zero_or_pos bs with hbs | hbs
      · subst hbs
        simp only [scrapeStep, hm, hc, Nat.mod_zero] at h ⊢
        simp [List.length_append]
        omega
      · have key : (s.messages + 1) % bs = (s.messages % bs + 1) % bs := by
          conv_lhs => rw [← Nat.mod_add_div s.messages bs]
          rw [Nat.add_right_comm]
          exact Nat.add_mul_mod_self_left (s.messages % bs + 1) bs (s.messages / bs)
        have hr : s.messages % bs < bs := Nat.mod_lt _ hbs
        rcases Nat.lt_or_ge (s.messages % bs + 1) bs with hlt | hge
        · have heq : (s.messages + 1) % bs = s.messages % bs + 1 := by
            rw [key, Nat.mod_eq_of_lt hlt]
          simp only [scrapeStep, hm, hc]
          simp [List.length_append, heq]
          omega
        · exfalso
          apply hne
          have hEq : s.messages % bs + 1 = bs := by omega
          rw [key, hEq, Nat.mod_self]

/-- The invariant holds for every reachable loop state. -/
lemma scrapeLoopRaw_pending_invariant (bs : Nat) (fetched : List FetchedMessage) :
    (scrapeLoopRaw bs fetched).pending.length ≤ (scrapeLoopRaw bs fetched).messages % bs := by
  suffices h : ∀ (s : ScrapeState), s.pending.length ≤ s.messages % bs →
      (fetched.foldl (scrapeStep bs) s).pending.length
        ≤ (fetched.foldl (scrapeStep bs) s).messages % bs by
    exact h {} (by simp)
  induction fetched with
  | nil => exact fun s hs => hs
  | cons m rest ih =>
    exact fun s hs => ih (scrapeStep bs s m) (scrapeStep_pending_invariant bs s m hs)

/-- At most `batch_size - 1` successfully saved messages are ever uncommitted
(and hence discardable by a rollback). -/
lemma scrapeLoopRaw_pending_bound (bs : Nat) (hbs : 1 ≤ bs)
    (fetched : List FetchedMessage) :
    (scrapeLoopRaw bs fetched).pending.length ≤ bs - 1 := by
  have h1 := scrapeLoopRaw_pending_invariant bs fetched
  have h2 : (scrapeLoopRaw bs fetched).messages % bs < bs := Nat.mod_lt _ hbs
  omega

/-- C10: a failing save rolls back the session, discarding every message
saved since the last batch commit (at most `batch_size - 1` of them by the
loop invariant) without touching the `messages` counter; concretely, a
channel whose history is two good messages followed by a failing one reports
`messages_scraped = 2` and adds 2 to the stored `message_count`, while zero
message rows are actually persisted. -/
theorem c10_rollback_discards_rows_but_not_counts :
    (∀ (bs : Nat) (s : ScrapeState) (m : FetchedMessage),
       m.saveOk = false → scrapeStep bs s m = { s with pending := [] })
    ∧ (∀ (bs : Nat), 1 ≤ bs → ∀ (fetched : List FetchedMessage),
       (scrapeLoopRaw bs fetched).pending.length ≤ bs - 1)
    ∧ ((scrapeChannel [] { id := 3, guild_id := 1, name := "general", type := 0 }
          (fun _ => [{ id := 501 }, { id := 502 }, { id := 503, saveOk := false }])
          9).statsMessages = 2
       ∧ (scrapeChannel [] { id := 3, guild_id := 1, name := "general", type := 0 }
          (fun _ => [{ id := 501 }, { id := 502 }, { id := 503, saveOk := false }])
          9).committedMessages = []
       ∧ (lookupChannel
            (scrapeChannel [] { id := 3, guild_id := 1, name := "general", type := 0 }
              (fun _ => [{ id := 501 }, { id := 502 }, { id := 503, saveOk := false }])
              9).channels 3).map (fun c => c.message_count) = some 2) := by
  refine ⟨scrapeStep_saveFail, fun bs h f => scrapeLoopRaw_pending_bound bs h f,
    rfl, rfl, rfl⟩

/-- C10 witness: the theorem's general parts applied at concrete inputs — a
failing save with two uncommitted messages, and a batch size of 3. -/
theorem c10_rollback_witness :
    scrapeStep 100
        { committed := [], pending := [501, 502], messages := 2, attachments := 0,
          first_id := some 501, last_id := some 502 }
        { id := 503, saveOk := false }
      = { committed := [], pending := [], messages := 2, attachments := 0,
          first_id := some 501, last_id := some 502 }
    ∧ (scrapeLoopRaw 3
        [{ id := 1 }, { id := 2 }, { id := 3, saveOk := false }, { id := 4 }]).pending.length
      ≤ 2 := by
  exact ⟨c10_rollback_discards_rows_but_not_counts.1 100 _ _ rfl,
         c10_rollback_discards_rows_but_not_counts.2.1 3 (by decide) _⟩

/-! ## Cursor tracking of the scrape loop (claim C6) -/

lemma if_lt_eq_min (f x : Nat) : (if x < f then x else f) = min f x := by
  rcases Nat.lt_or_ge x f with h | h
  · rw [if_pos h]
    exact (min_eq_right (Nat.le_of_lt h)).symm
  · rw [if_neg (Nat.not_lt.mpr h)]
    exact (min_eq_left h).symm

lemma if_gt_eq_max (l x : Nat) : (if x > l then x else l) = max l x := by
  rcases Nat.lt_or_ge l x with h | h
  · rw [if_pos h]
    exact (max_eq_right (Nat.le_of_lt h)).symm
  · rw [if_neg (Nat.not_lt.mpr h)]
    exact (max_eq_left h).symm

/-- One successful-save step advances the counter by one and folds the
message id into both trackers. -/
lemma scrapeStep_track (bs : Nat) (s : ScrapeState) (m : FetchedMessage)
    (hm : m.saveOk = true) (hfl : s.first_id = none ↔ s.last_id = none) :
    (scrapeStep bs s m).messages = s.messages + 1
    ∧ (scrapeStep bs s m).first_id = optMin s.first_id m.id
    ∧ (scrapeStep bs s m).last_id = optMax s.last_id m.id
    ∧ ((scrapeStep bs s m).first_id = none ↔ (scrapeStep bs s m).last_id = none) := by
  cases hf : s.first_id with
  | none =>
    have hl : s.last_id = none := hfl.mp hf
    cases hc : ((s.messages + 1) % bs == 0) <;>
      simp [scrapeStep, hm, hf, hl, hc, optMin, optMax]
  | some f =>
    cases hl : s.last_id with
    | none => exact absurd (hfl.mpr hl) (by simp [hf])
    | some l =>
      cases hc : ((s.messages + 1) % bs == 0) <;>
        simp [scrapeStep, hm, hf, hl, hc, optMin, optMax, if_lt_eq_min, if_gt_eq_max]

/-- The loop's counter counts the successfully saved messages and its
trackers fold `optMin`/`optMax` over their ids. -/
lemma scrapeLoop_track (bs : Nat) (fetched : List FetchedMessage) :
    ∀ (s : ScrapeState), (s.first_id = none ↔ s.last_id = none) →
      (fetched.foldl (scrapeStep bs) s).messages = s.messages + (savedIds fetched).length
      ∧ (fetched.foldl (scrapeStep bs) s).first_id
          = (savedIds fetched).foldl optMin s.first_id
      ∧ (fetched.foldl (scrapeStep bs) s).last_id
          = (savedIds fetched).foldl optMax s.last_id
      ∧ ((fetched.foldl (scrapeStep bs) s).first_id = none
          ↔ (fetched.foldl (scrapeStep bs) s).last_id = none) := by
  induction fetched with
  | nil =>
    intro s h
    exact ⟨by simp [savedIds], by simp [savedIds], by simp [savedIds], h⟩
  | cons m rest ih =>
    intro s h
    cases hm : m.saveOk with
    | false =>
      have hstep : scrapeStep bs s m = { s with pending := [] } :=
        scrapeStep_saveFail bs s m hm
      have hsaved : savedIds (m :: rest) = savedIds rest := by
        simp [savedIds, hm]
      have ihs := ih { s with pending := [] } h
      rw [List.foldl_cons, hstep, hsaved]
      exact ihs
    | true =>
      obtain ⟨h1, h2, h3, h4⟩ := scrapeStep_track bs s m hm h
      have hsaved : savedIds (m :: rest) = m.id :: savedIds rest := by
        simp [savedIds, hm]
      have ihs := ih (scrapeStep bs s m) h4
      rw [List.foldl_cons, hsaved]
      refine ⟨?_, ?_, ?_, ihs.2.2.2⟩
      · rw [ihs.1, h1, List.length_cons]
        omega
      · rw [List.foldl_cons, ihs.2.1, h2]
      · rw [List.foldl_cons, ihs.2.2.1, h3]

lemma foldl_optMax_some (xs : List Nat) :
    ∀ (a : Nat), xs.foldl optMax (some a) = some (xs.foldl max a) := by
  induction xs with
  | nil => intro a; rfl
  | cons x xs ih =>
    intro a
    rw [List.foldl_cons, List.foldl_cons]
    exact ih (max a x)

lemma foldl_optMin_some (xs : List Nat) :
    ∀ (a : Nat), xs.foldl optMin (some a) = some (xs.foldl min a) := by
  induction xs with
  | nil => intro a; rfl
  | cons x xs ih =>
    intro a
    rw [List.foldl_cons, List.foldl_cons]
    exact ih (min a x)

lemma foldl_max_self_le (xs : List Nat) : ∀ a, a ≤ xs.foldl max a := by
  induction xs with
  | nil => intro a; exact Nat.le_refl a
  | cons x xs ih =>
    intro a
    rw [List.foldl_cons]
    exact Nat.le_trans (Nat.le_max_left a x) (ih (max a x))

lemma foldl_max_le_of_mem (xs : List Nat) :
    ∀ (a y : Nat), y ∈ xs → y ≤ xs.foldl max a := by
  induction xs with
  | nil => intro a y hy; cases hy
  | cons x xs ih =>
    intro a y hy
    rw [List.foldl_cons]
    rcases List.mem_cons.mp hy with rfl | hy
    · exact Nat.le_trans (Nat.le_max_right a y) (foldl_max_self_le xs (max a y))
    · exact ih (max a x) y hy

lemma foldl_max_mem (xs : List Nat) : ∀ a, xs.foldl max a = a ∨ xs.foldl max a ∈ xs := by
  induction xs with
  | nil => intro a; exact Or.inl rfl
  | cons x xs ih =>
    intro a
    rw [List.foldl_cons]
    rcases ih (max a x) with h | h
    · rw [h]
      rcases Nat.le_total a x with hax | hxa
      · exact Or.inr (by rw [max_eq_right hax]; exact List.mem_cons_self x xs)
      · exact Or.inl (max_eq_left hxa)
    · exact Or.inr (List.mem_cons_of_mem x h)

/-- Over a nonempty id list the `optMax` fold yields the true maximum: an
element of the list that bounds the whole list. -/
lemma foldl_optMax_of_ne_nil (xs : List Nat) (h : xs ≠ []) :
    ∃ mx, xs.foldl optMax none = some mx ∧ mx ∈ xs ∧ ∀ y ∈ xs, y ≤ mx := by
  cases xs with
  | nil => exact absurd rfl h
  | cons x xs =>
    refine ⟨xs.foldl max x, ?_, ?_, ?_⟩
    · rw [List.foldl_cons]
      exact foldl_optMax_some xs x
    · rcases foldl_max_mem xs x with h2 | h2
      · rw [h2]
        exact List.mem_cons_self x xs
      · exact List.mem_cons_of_mem x h2
    · intro y hy
      rcases List.mem_cons.mp hy with rfl | hy
      · exact foldl_max_self_le xs y
      · exact foldl_max_le_of_mem xs x y hy

lemma foldl_optMin_of_ne_nil (xs : List Nat) (h : xs ≠ []) :
    ∃ mn, xs.foldl optMin none = some mn := by
  cases xs with
  | nil => exact absurd rfl h
  | cons x xs =>
    refine ⟨xs.foldl min x, ?_⟩
    rw [List.foldl_cons]
    exact foldl_optMin_some xs x

/-! ## Lookup lemmas for the channel table -/

lemma lookupChannel_map (T : List ChannelRow) (f : ChannelRow → ChannelRow)
    (hf : ∀ c, (f c).id = c.id) (id : Nat) :
    lookupChannel (T.map f) id = (lookupChannel T id).map f := by
  unfold lookupChannel
  rw [List.find?_map]
  have hp : ((fun c : ChannelRow => c.id == id) ∘ f)
      = (fun c : ChannelRow => c.id == id) := by
    funext c
    simp [Function.comp, hf c]
  rw [hp]

lemma lookupChannel_append (T1 T2 : List ChannelRow) (id : Nat) :
    lookupChannel (T1 ++ T2) id = (lookupChannel T1 id).or (lookupChannel T2 id) := by
  unfold lookupChannel
  exact List.find?_append

/-- A found row's id is the looked-up id. -/
lemma lookupChannel_id (T : List ChannelRow) (id : Nat) (c : ChannelRow)
    (hc : lookupChannel T id = some c) : c.id = id := by
  have := List.find?_some hc
  exact eq_of_beq this

/-- `ChannelRepository.upsert` seen through a lookup that finds a row: the
row is metadata-updated when it is the upserted id, untouched otherwise. -/
lemma upsert_lookup_some (T : List ChannelRow) (r : ChannelRow) (id : Nat)
    (c : ChannelRow) (hc : lookupChannel T id = some c) :
    lookupChannel (ChannelRepository.upsert T r) id
      = some (if c.id == r.id then
          { c with
            name := r.name
            topic := r.topic
            position := r.position
            parent_id := r.parent_id }
        else c) := by
  unfold ChannelRepository.upsert
  by_cases hex : T.any (fun x => x.id == r.id) = true
  · rw [if_pos hex,
      lookupChannel_map T _
        (by intro x; by_cases h : (x.id == r.id) = true <;> simp [h]) id, hc]
    rfl
  · rw [if_neg hex, lookupChannel_append, hc]
    cases hcr : (c.id == r.id) with
    | true =>
      exact absurd (List.any_eq_true.mpr ⟨c, List.mem_of_find?_eq_some hc, hcr⟩) hex
    | false => simp
  -- (some c).or _ = some c, and the `if` reduces by `hcr`

/-- `ChannelRepository.upsert` seen through a lookup of the upserted id when
no row with that id exists: the fresh record is found. -/
lemma upsert_lookup_none (T : List ChannelRow) (r : ChannelRow)
    (hc : lookupChannel T r.id = none) :
    lookupChannel (ChannelRepository.upsert T r) r.id = some r := by
  unfold ChannelRepository.upsert
  have hex : T.any (fun x => x.id == r.id) = false := by
    rw [List.any_eq_false]
    intro x hx
    exact (List.find?_eq_none.mp hc) x hx
  rw [if_neg (by simp [hex]), lookupChannel_append, hc]
  simp [lookupChannel]

/-! ## Characterizations of `_scrape_channel`'s pieces -/

lemma scrapeLoop_fields (bs : Nat) (fetched : List FetchedMessage) :
    (scrapeLoop bs fetched).messages = (savedIds fetched).length
    ∧ (scrapeLoop bs fetched).first_id = (savedIds fetched).foldl optMin none
    ∧ (scrapeLoop bs fetched).last_id = (savedIds fetched).foldl optMax none := by
  have h := scrapeLoop_track bs fetched {} (by simp)
  exact ⟨h.1.trans (Nat.zero_add _), h.2.1, h.2.2.1⟩

lemma scrapeChannelFinish_stats (channels : List ChannelRow) (desc : ChannelDescriptor)
    (s : ScrapeState) (now : Nat) :
    (scrapeChannelFinish channels desc s now).statsMessages = s.messages := by
  unfold scrapeChannelFinish
  split
  · split <;> rfl
  · rfl

lemma scrapeChannelFinish_channels_zero (channels : List ChannelRow)
    (desc : ChannelDescriptor) (s : ScrapeState) (now : Nat) (h : ¬ s.messages > 0) :
    (scrapeChannelFinish channels desc s now).channels = channels := by
  unfold scrapeChannelFinish
  rw [if_neg h]
  rfl

lemma scrapeChannelFinish_channels_pos (channels : List ChannelRow)
    (desc : ChannelDescriptor) (s : ScrapeState) (now : Nat) (first last : Nat)
    (hpos : s.messages > 0) (hf : s.first_id = some first) (hl : s.last_id = some last) :
    (scrapeChannelFinish channels desc s now).channels
      = ChannelRepository.update_message_metadata
          (channels.map (fun c =>
            if c.id == desc.id then { c with first_message_id := some first } else c))
          desc.id last s.messages now := by
  unfold scrapeChannelFinish
  rw [if_pos hpos, hf, hl]

/-- One `_scrape_channel` invocation never regresses any channel's stored
cursor or message count, provided the remote honours the after-cursor
contract of `channel.history(after=...)` on incremental fetches. -/
lemma scrapeChannel_mono (channels : List ChannelRow) (desc : ChannelDescriptor)
    (history : Option Nat → List FetchedMessage) (now : Nat)
    (hhist : ∀ l : Nat, ∀ m ∈ history (some l), l < m.id) (id : Nat) :
    cursorNat (lookupChannel channels id)
      ≤ cursorNat (lookupChannel (scrapeChannel channels desc history now).channels id)
    ∧ countNat (lookupChannel channels id)
      ≤ countNat (lookupChannel (scrapeChannel channels desc history now).channels id) := by
  cases hc : lookupChannel channels id with
  | none => exact ⟨Nat.zero_le _, Nat.zero_le _⟩
  | some c =>
    have hcid : c.id = id := lookupChannel_id channels id c hc
    have hT1 : lookupChannel (postMetadataChannels channels desc) id
        = some (channelMetaUpdated desc c) :=
      upsert_lookup_some channels (descRow desc) id c hc
    have hmlast : (channelMetaUpdated desc c).last_message_id = c.last_message_id := by
      unfold channelMetaUpdated
      split <;> rfl
    have hmcount : (channelMetaUpdated desc c).message_count = c.message_count := by
      unfold channelMetaUpdated
      split <;> rfl
    simp only [scrapeChannel]
    by_cases hpos : (scrapeLoop 100 (history (scrapeCursor channels desc))).messages > 0
    · obtain ⟨hsm, hsf, hsl⟩ := scrapeLoop_fields 100 (history (scrapeCursor channels desc))
      have hne : savedIds (history (scrapeCursor channels desc)) ≠ [] := by
        intro hnil
        rw [hsm, hnil] at hpos
        exact Nat.lt_irrefl 0 hpos
      obtain ⟨mx, hmx, hmxmem, _⟩ := foldl_optMax_of_ne_nil _ hne
      obtain ⟨mn, hmn⟩ := foldl_optMin_of_ne_nil _ hne
      rw [scrapeChannelFinish_channels_pos _ _ _ _ mn mx hpos (hsf.trans hmn)
          (hsl.trans hmx)]
      unfold ChannelRepository.update_message_metadata
      rw [lookupChannel_map _ _
            (by intro x; by_cases hx : (x.id == desc.id) = true <;> simp [hx]) id,
          lookupChannel_map _ _
            (by intro x; by_cases hx : (x.id == desc.id) = true <;> simp [hx]) id,
          hT1, Option.map_some', Option.map_some']
      cases hcd : (c.id == desc.id) with
      | false =>
        simp [channelMetaUpdated, hcd, cursorNat, countNat]
      | true =>
        have hidd : id = desc.id := hcid ▸ eq_of_beq hcd
        constructor
        · -- cursor: old stored value (if truthy it steered the fetch) ≤ new maximum
          cases hlast : c.last_message_id with
          | none =>
            simp [channelMetaUpdated, hcd, cursorNat, hlast]
          | some l =>
            by_cases hl0 : l = 0
            · subst hl0
              simp [channelMetaUpdated, hcd, cursorNat, hlast]
            · have hcur : scrapeCursor channels desc = some l := by
                unfold scrapeCursor
                rw [← hidd, hT1]
                simp [hmlast, hlast, pyTruthy, hl0]
              have hgt : ∀ y ∈ savedIds (history (scrapeCursor channels desc)), l < y := by
                intro y hy
                rw [hcur] at hy
                simp only [savedIds, List.mem_map] at hy
                obtain ⟨m, hmF, rfl⟩ := hy
                exact hhist l m (List.mem_of_mem_filter hmF)
              have : l ≤ mx := Nat.le_of_lt (hgt mx hmxmem)
              simp [channelMetaUpdated, hcd, cursorNat, hlast]
              exact this
        · simp [channelMetaUpdated, hcd, countNat]
    · rw [scrapeChannelFinish_channels_zero _ _ _ _ hpos, hT1]
      constructor
      · simp [cursorNat, hmlast]
      · simp [countNat, hmcount]

/-- Monotonicity composes over any sequence of consecutive scrapes. -/
lemma scrapeChannelIter_mono (desc : ChannelDescriptor)
    (runs : List ((Option Nat → List FetchedMessage) × Nat)) :
    ∀ (channels : List ChannelRow),
      (∀ r ∈ runs, ∀ l : Nat, ∀ m ∈ r.1 (some l), l < m.id) →
      ∀ id : Nat,
        cursorNat (lookupChannel channels id)
          ≤ cursorNat (lookupChannel (scrapeChannelIter desc channels runs) id)
        ∧ countNat (lookupChannel channels id)
          ≤ countNat (lookupChannel (scrapeChannelIter desc channels runs) id) := by
  induction runs with
  | nil =>
    intro channels _ id
    exact ⟨Nat.le_refl _, Nat.le_refl _⟩
  | cons r rest ih =>
    intro channels hr id
    obtain ⟨h, t⟩ := r
    have h1 := scrapeChannel_mono channels desc h t
      (hr (h, t) (List.mem_cons_self _ _)) id
    have h2 := ih (scrapeChannel channels desc h t).channels
      (fun q hq => hr q (List.mem_cons_of_mem _ hq)) id
    exact ⟨Nat.le_trans h1.1 h2.1, Nat.le_trans h1.2 h2.2⟩

/-- After a scrape that saved at least one message, the stored cursor of the
scraped channel is the true maximum id among the saved messages. -/
lemma scrapeChannel_cursor_max (channels : List ChannelRow) (desc : ChannelDescriptor)
    (history : Option Nat → List FetchedMessage) (now : Nat)
    (hpos : (scrapeChannel channels desc history now).statsMessages ≠ 0) :
    ∃ mx, (lookupChannel (scrapeChannel channels desc history now).channels desc.id).bind
            (fun c => c.last_message_id) = some mx
      ∧ mx ∈ savedIds (history (scrapeCursor channels desc))
      ∧ ∀ y ∈ savedIds (history (scrapeCursor channels desc)), y ≤ mx := by
  have hpos' : (scrapeLoop 100 (history (scrapeCursor channels desc))).messages > 0 := by
    simp only [scrapeChannel] at hpos
    rw [scrapeChannelFinish_stats] at hpos
    omega
  obtain ⟨hsm, hsf, hsl⟩ := scrapeLoop_fields 100 (history (scrapeCursor channels desc))
  have hne : savedIds (history (scrapeCursor channels desc)) ≠ [] := by
    intro hnil
    rw [hsm, hnil] at hpos'
    exact Nat.lt_irrefl 0 hpos'
  obtain ⟨mx, hmx, hmxmem, hmxub⟩ := foldl_optMax_of_ne_nil _ hne
  obtain ⟨mn, hmn⟩ := foldl_optMin_of_ne_nil _ hne
  refine ⟨mx, ?_, hmxmem, hmxub⟩
  simp only [scrapeChannel]
  rw [scrapeChannelFinish_channels_pos _ _ _ _ mn mx hpos' (hsf.trans hmn)
      (hsl.trans hmx)]
  unfold ChannelRepository.update_message_metadata
  cases hc : lookupChannel channels desc.id with
  | some c =>
    have hT1 : lookupChannel (postMetadataChannels channels desc) desc.id
        = some (channelMetaUpdated desc c) :=
      upsert_lookup_some channels (descRow desc) desc.id c hc
    have hcd : (c.id == desc.id) = true := by
      simp [lookupChannel_id channels desc.id c hc]
    rw [lookupChannel_map _ _
          (by intro x; by_cases hx : (x.id == desc.id) = true <;> simp [hx]) desc.id,
        lookupChannel_map _ _
          (by intro x; by_cases hx : (x.id == desc.id) = true <;> simp [hx]) desc.id,
        hT1, Option.map_some', Option.map_some']
    simp [channelMetaUpdated, hcd]
  | none =>
    have hT1 : lookupChannel (postMetadataChannels channels desc) desc.id
        = some (descRow desc) :=
      upsert_lookup_none channels (descRow desc) hc
    rw [lookupChannel_map _ _
          (by intro x; by_cases hx : (x.id == desc.id) = true <;> simp [hx]) desc.id,
        lookupChannel_map _ _
          (by intro x; by_cases hx : (x.id == desc.id) = true <;> simp [hx]) desc.id,
        hT1, Option.map_some', Option.map_some']
    simp [descRow]

/-- C6: across any sequence of consecutive scrape invocations, every
channel's stored `last_message_id` and `message_count` are non-decreasing
(the incremental-sync cursor never regresses), provided each invocation's
remote history honours the after-cursor contract; and a scrape that saved at
least one message stores as cursor the true maximum id among the saved
messages — an id of one of them bounding all of them, computed by
comparison, not assumed from fetch order. -/
theorem c6_cursor_monotone_and_true_max (desc : ChannelDescriptor)
    (runs : List ((Option Nat → List FetchedMessage) × Nat))
    (channels : List ChannelRow)
    (history : Option Nat → List FetchedMessage) (now : Nat)
    (hruns : ∀ r ∈ runs, ∀ l : Nat, ∀ m ∈ r.1 (some l), l < m.id) :
    (∀ id : Nat,
      cursorNat (lookupChannel channels id)
        ≤ cursorNat (lookupChannel (scrapeChannelIter desc channels runs) id)
      ∧ countNat (lookupChannel channels id)
        ≤ countNat (lookupChannel (scrapeChannelIter desc channels runs) id))
    ∧ ((scrapeChannel channels desc history now).statsMessages ≠ 0 →
      ∃ mx, (lookupChannel (scrapeChannel channels desc history now).channels
               desc.id).bind (fun c => c.last_message_id) = some mx
        ∧ mx ∈ savedIds (history (scrapeCursor channels desc))
        ∧ ∀ y ∈ savedIds (history (scrapeCursor channels desc)), y ≤ mx) :=
  ⟨fun id => scrapeChannelIter_mono desc runs channels hruns id,
   fun hpos => scrapeChannel_cursor_max channels desc history now hpos⟩

/-- C6 witness: the theorem at a concrete two-scrape run over an initially
empty store — a full fetch of ids 5, 9, 3 (out of id order) followed by an
incremental fetch that returns nothing. -/
theorem c6_cursor_witness :
    (∀ id : Nat,
      cursorNat (lookupChannel [] id)
        ≤ cursorNat (lookupChannel
            (scrapeChannelIter { id := 3, guild_id := 1, name := "general", type := 0 }
              [] [(historyW, 1), (historyW, 2)]) id)
      ∧ countNat (lookupChannel [] id)
        ≤ countNat (lookupChannel
            (scrapeChannelIter { id := 3, guild_id := 1, name := "general", type := 0 }
              [] [(historyW, 1), (historyW, 2)]) id))
    ∧ ((scrapeChannel [] { id := 3, guild_id := 1, name := "general", type := 0 }
          historyW 1).statsMessages ≠ 0 →
      ∃ mx, (lookupChannel
               (scrapeChannel [] { id := 3, guild_id := 1, name := "general", type := 0 }
                 historyW 1).channels
               (3 : Nat)).bind (fun c => c.last_message_id) = some mx
        ∧ mx ∈ savedIds (historyW
            (scrapeCursor [] { id := 3, guild_id := 1, name := "general", type := 0 }))
        ∧ ∀ y ∈ savedIds (historyW
            (scrapeCursor [] { id := 3, guild_id := 1, name := "general", type := 0 })),
            y ≤ mx) :=
  c6_cursor_monotone_and_true_max
    { id := 3, guild_id := 1, name := "general", type := 0 }
    [(historyW, 1), (historyW, 2)] [] historyW 1
    (by
      intro r hr l m hm
      rcases List.mem_cons.mp hr with rfl | hr2
      · simp [historyW] at hm
      · rw [List.mem_singleton] at hr2
        subst hr2
        simp [historyW] at hm)

end WumpusArchiver
